import Mathlib

/-!
Shallow embedding of the "learn-solid-principle" shape-area snippets.

The repository's substantive code lives in three TypeScript fragments:
an OCP demo (interface `Shape` with `Square`, `Circle`, `Triangle` and an
`AreaCalculator` summing areas via `reduce`), an SRP demo (the same
`AreaCalculator` over `Circle`/`Square` plus an `Outputter` with `toText`
and `toJson`, and an SRP-violating `AreaCalculator` using `instanceof`
dispatch with an `output()` method), and an OCP-violating `AreaCalculator`
whose `reduce` callback has no fallback return.

Modelling choices:
* JavaScript `number` values are modelled as exact rationals `ℚ`; the
  runtime constant `Math.PI` is threaded through every definition as an
  explicit parameter `piv : ℚ`, so each identity proved below holds for
  the actual value of π and for any other value of the constant.  In this
  model no non-finite numeric value exists, matching the spec's remark
  that NaN/Infinity cannot arise under the fixed formulas.
* The number-to-string conversion performed by JavaScript template
  literals and `JSON.stringify` is abstracted as a parameter
  `numToStr : ℚ → String` (the runtime's default decimal rendering).
* Classes with only data and pure methods become structures and pure
  functions; `reduce` and `for..of` loops become `List.foldl`.
-/

/-- Shape values of the compliant variants: `Square` (field `width` in the
OCP file, `length` in the SRP file), `Circle` (field `radius`) and
`Triangle` (fields `base`, `height`). -/
inductive Shape where
  | square (width : ℚ)
  | circle (radius : ℚ)
  | triangle (base height : ℚ)
deriving DecidableEq, Repr

/-- The per-variant `area()` methods: `width * width`,
`Math.PI * radius * radius`, `0.5 * base * height`. -/
def Shape.area (piv : ℚ) : Shape → ℚ
  | .square w => w * w
  | .circle r => piv * r * r
  | .triangle b h => 0.5 * b * h

/-- `AreaCalculator` of the compliant variants: holds the `shapes` array. -/
structure AreaCalculator where
  shapes : List Shape
deriving DecidableEq, Repr

/-- `AreaCalculator.sum`:
`this.shapes.reduce((acc, shape) => acc + shape.area(), 0)`. -/
def AreaCalculator.sum (piv : ℚ) (c : AreaCalculator) : ℚ :=
  c.shapes.foldl (fun acc shape => acc + shape.area piv) 0

/-- Leaf JSON values appearing in this development: numbers and strings. -/
inductive JsonAtom where
  | num (x : ℚ)
  | str (s : String)
deriving DecidableEq, Repr

/-- JSON values: a leaf, or an object with atomic fields (all this
repository ever serializes). -/
inductive Json where
  | atom (a : JsonAtom)
  | obj (fields : List (String × JsonAtom))
deriving DecidableEq, Repr

/-- Keys of a JSON value (empty for a leaf). -/
def Json.keys : Json → List String
  | .atom _ => []
  | .obj fields => fields.map Prod.fst

/-- Field lookup in a JSON value. -/
def Json.lookupField (j : Json) (k : String) : Option JsonAtom :=
  match j with
  | .atom _ => none
  | .obj fields => (fields.find? (fun p => p.1 == k)).map Prod.snd

/-- Serialization of a leaf JSON value, given the runtime's
number-to-string conversion. -/
def jsonAtomToString (numToStr : ℚ → String) : JsonAtom → String
  | .num x => numToStr x
  | .str s => "\"" ++ s ++ "\""

/-- `JSON.stringify` for the JSON values of this development. -/
def jsonStringify (numToStr : ℚ → String) : Json → String
  | .atom a => jsonAtomToString numToStr a
  | .obj fields =>
      "\x7b" ++
        String.intercalate ","
          (fields.map (fun p => "\"" ++ p.1 ++ "\":" ++ jsonAtomToString numToStr p.2)) ++
      "\x7d"

/-- `Outputter`: wraps an `AreaCalculator`. -/
structure Outputter where
  areaCalculator : AreaCalculator
deriving DecidableEq, Repr

/-- `Outputter.toText`: the template literal
``Sum of the areas of provided shapes: ${this.areaCalculator.sum()}``. -/
def Outputter.toText (numToStr : ℚ → String) (piv : ℚ) (o : Outputter) : String :=
  "Sum of the areas of provided shapes: " ++ numToStr (o.areaCalculator.sum piv)

/-- The record `\x7b totalArea: this.areaCalculator.sum() \x7d` passed to
`JSON.stringify` inside `Outputter.toJson`. -/
def Outputter.toJsonValue (piv : ℚ) (o : Outputter) : Json :=
  .obj [("totalArea", .num (o.areaCalculator.sum piv))]

/-- `Outputter.toJson`: `JSON.stringify(\x7b totalArea: this.areaCalculator.sum() \x7d)`. -/
def Outputter.toJson (numToStr : ℚ → String) (piv : ℚ) (o : Outputter) : String :=
  jsonStringify numToStr (o.toJsonValue piv)

/-- Positivity of a shape's construction parameters (the spec's "positive
finite dimensions"; in this model every rational is finite). -/
def Shape.posDims : Shape → Prop
  | .square w => 0 < w
  | .circle r => 0 < r
  | .triangle b h => 0 < b ∧ 0 < h

instance : DecidablePred Shape.posDims := fun s =>
  match s with
  | .square w => inferInstanceAs (Decidable (0 < w))
  | .circle r => inferInstanceAs (Decidable (0 < r))
  | .triangle b h => inferInstanceAs (Decidable (0 < b ∧ 0 < h))

namespace SrpViolation

/-- Shape values of the SRP-violating example: bare data holders `Circle`
(field `radius`) and `Square` (field `length`) with no `area` method; the
calculator's array has element type `Circle | Square`. -/
inductive CSShape where
  | circle (radius : ℚ)
  | square (length : ℚ)
deriving DecidableEq, Repr

/-- The SRP-violating `AreaCalculator`: holds the `shapes` array. -/
structure AreaCalculator where
  shapes : List CSShape
deriving DecidableEq, Repr

/-- One iteration of the `for..of` loop body in the SRP-violating `sum()`:
`if (shape instanceof Circle) sum += Math.PI * r * r;`
`if (shape instanceof Square) sum += l * l;`.  On the union type the two
`instanceof` tests discriminate the constructor. -/
def sumStep (piv : ℚ) (sum : ℚ) (shape : CSShape) : ℚ :=
  match shape with
  | .circle r => sum + piv * r * r
  | .square l => sum + l * l

/-- The SRP-violating `sum()`: `let sum = 0; for (const shape of
this.shapes) ...; return sum;`. -/
def AreaCalculator.sum (piv : ℚ) (c : AreaCalculator) : ℚ :=
  c.shapes.foldl (sumStep piv) 0

/-- The SRP-violating `output()`: the template literal
``Sum of the areas of provided shapes: ${this.sum()}``. -/
def AreaCalculator.output (numToStr : ℚ → String) (piv : ℚ)
    (c : AreaCalculator) : String :=
  "Sum of the areas of provided shapes: " ++ numToStr (c.sum piv)

/-- Embedding of the SRP-violating data holders into the compliant `Shape`
hierarchy, dimension for dimension. -/
def CSShape.toShape : CSShape → Shape
  | .circle r => .circle r
  | .square l => .square l

end SrpViolation

namespace OcpViolation

/-- Element values of the OCP-violating calculator, whose array has type
`any[]`: actual `Square` (field `width`) or `Circle` (field `radius`)
instances, or any other value (`other`), which both `instanceof` tests
reject. -/
inductive AnyVal where
  | square (width : ℚ)
  | circle (radius : ℚ)
  | other
deriving DecidableEq, Repr

/-- Runtime value of the `reduce` accumulator in untyped JavaScript: a
proper number, `NaN`, or `undefined` (the callback's implicit return). -/
inductive JSNum where
  | num (x : ℚ)
  | nan
  | undefinedVal
deriving DecidableEq, Repr

/-- JavaScript `acc + e` where `e` evaluates to a proper number:
`undefined + e` and `NaN + e` are both `NaN`. -/
def jsAdd : JSNum → ℚ → JSNum
  | .num x, y => .num (x + y)
  | .nan, _ => .nan
  | .undefinedVal, _ => .nan

/-- The `reduce` callback of the OCP-violating `sum()`:
`if (shape instanceof Square) return acc + w * w;`
`if (shape instanceof Circle) return acc + Math.PI * r * r;`
and, with no further statement, an implicit `return undefined`. -/
def sumStep (piv : ℚ) (acc : JSNum) (shape : AnyVal) : JSNum :=
  match shape with
  | .square w => jsAdd acc (w * w)
  | .circle r => jsAdd acc (piv * r * r)
  | .other => .undefinedVal

/-- The OCP-violating `AreaCalculator`: holds the `shapes : any[]` array. -/
structure AreaCalculator where
  shapes : List AnyVal
deriving DecidableEq, Repr

/-- The OCP-violating `sum()`: `this.shapes.reduce(callback, 0)`. -/
def AreaCalculator.sum (piv : ℚ) (c : AreaCalculator) : JSNum :=
  c.shapes.foldl (sumStep piv) (.num 0)

/-- Whether an element is one of the two recognized shape classes. -/
def AnyVal.isRecognized : AnyVal → Bool
  | .square _ => true
  | .circle _ => true
  | .other => false

/-- Area the OCP-violating callback attributes to a recognized element
(`0` for an unrecognized one, used only to state the postcondition). -/
def AnyVal.areaOf (piv : ℚ) : AnyVal → ℚ
  | .square w => w * w
  | .circle r => piv * r * r
  | .other => 0

end OcpViolation

/-! ## Helper lemmas -/

lemma foldl_add_area (piv : ℚ) (l : List Shape) (a : ℚ) :
    l.foldl (fun acc shape => acc + shape.area piv) a =
      a + (l.map (Shape.area piv)).sum := by
  induction l generalizing a with
  | nil => simp
  | cons x xs ih => simp [ih, add_assoc]

lemma AreaCalculator.sum_eq_map_sum (piv : ℚ) (c : AreaCalculator) :
    c.sum piv = (c.shapes.map (Shape.area piv)).sum := by
  simpa using foldl_add_area piv c.shapes 0

lemma srp_foldl_eq (piv : ℚ) (l : List SrpViolation.CSShape) (a : ℚ) :
    l.foldl (SrpViolation.sumStep piv) a =
      (l.map SrpViolation.CSShape.toShape).foldl
        (fun acc shape => acc + shape.area piv) a := by
  induction l generalizing a with
  | nil => rfl
  | cons x xs ih =>
      cases x <;>
        simp [SrpViolation.sumStep, SrpViolation.CSShape.toShape, Shape.area, ih]

lemma ocp_foldl_stuck (piv : ℚ) (l : List OcpViolation.AnyVal)
    (acc : OcpViolation.JSNum) (h : acc = .nan ∨ acc = .undefinedVal) :
    l.foldl (OcpViolation.sumStep piv) acc = .nan ∨
      l.foldl (OcpViolation.sumStep piv) acc = .undefinedVal := by
  induction l generalizing acc with
  | nil => simpa using h
  | cons x xs ih =>
      refine ih _ ?_
      rcases h with h | h <;> subst h <;> cases x <;>
        simp [OcpViolation.sumStep, OcpViolation.jsAdd]

lemma ocp_foldl_num (piv : ℚ) (l : List OcpViolation.AnyVal) (a : ℚ)
    (h : ∀ s ∈ l, s.isRecognized = true) :
    l.foldl (OcpViolation.sumStep piv) (.num a) =
      .num (a + (l.map (OcpViolation.AnyVal.areaOf piv)).sum) := by
  induction l generalizing a with
  | nil => simp
  | cons x xs ih =>
      have hx := h x (List.mem_cons_self x xs)
      have hxs : ∀ s ∈ xs, s.isRecognized = true :=
        fun s hs => h s (List.mem_cons_of_mem _ hs)
      cases x with
      | square w =>
          have hstep := ih (a + w * w) hxs
          simp [OcpViolation.sumStep, OcpViolation.jsAdd, hstep,
            OcpViolation.AnyVal.areaOf, add_assoc]
      | circle r =>
          have hstep := ih (a + piv * r * r) hxs
          simp [OcpViolation.sumStep, OcpViolation.jsAdd, hstep,
            OcpViolation.AnyVal.areaOf, add_assoc]
      | other => simp [OcpViolation.AnyVal.isRecognized] at hx

/-! ## Claims -/

/-- C1: for every sequence of shapes, `AreaCalculator.sum` returns the
arithmetic sum of `area()` over every element, in iteration order.  The
embedding is a pure function, so freedom from side effects holds by
construction. -/
theorem claim_C1_sum_is_total_area (piv : ℚ) (c : AreaCalculator) :
    c.sum piv = (c.shapes.map (Shape.area piv)).sum :=
  AreaCalculator.sum_eq_map_sum piv c

/-- C2: each variant's `area()` equals its closed-form formula: `w * w`
for a square of side `w`, `π * r * r` for a circle of radius `r`, and
`0.5 * b * h` for a triangle of base `b` and height `h`. -/
theorem claim_C2_area_formulas (piv w r b h : ℚ) :
    (Shape.square w).area piv = w * w ∧
    (Shape.circle r).area piv = piv * r * r ∧
    (Shape.triangle b h).area piv = 0.5 * b * h :=
  ⟨rfl, rfl, rfl⟩

/-- C3: `AreaCalculator.sum` applied to the empty sequence of shapes
returns `0`. -/
theorem claim_C3_empty_sum_zero (piv : ℚ) :
    AreaCalculator.sum piv ⟨[]⟩ = 0 :=
  rfl

/-- C4: `AreaCalculator.sum` yields the same result on any permutation of
the shape sequence, exactly, over the exact rational arithmetic of this
model. -/
theorem claim_C4_sum_perm_invariant (piv : ℚ) (l₁ l₂ : List Shape)
    (h : l₁.Perm l₂) :
    AreaCalculator.sum piv ⟨l₁⟩ = AreaCalculator.sum piv ⟨l₂⟩ := by
  rw [AreaCalculator.sum_eq_map_sum, AreaCalculator.sum_eq_map_sum]
  exact List.Perm.sum_eq (h.map _)

/-- C4 witness: a concrete two-element permutation. -/
theorem claim_C4_witness :
    ([Shape.square 1, Shape.circle 2].Perm [Shape.circle 2, Shape.square 1]) ∧
    AreaCalculator.sum 3 ⟨[Shape.square 1, Shape.circle 2]⟩ =
      AreaCalculator.sum 3 ⟨[Shape.circle 2, Shape.square 1]⟩ :=
  ⟨by decide, claim_C4_sum_perm_invariant 3 _ _ (by decide)⟩

/-- C5: `Outputter.toJson` serializes exactly the record it passes to
`JSON.stringify`, and that record has exactly one key, `totalArea`, whose
value is the JSON number (constructor `JsonAtom.num`, not `JsonAtom.str`)
equal to the wrapped calculator's `sum()`. -/
theorem claim_C5_toJson_single_key (numToStr : ℚ → String) (piv : ℚ)
    (o : Outputter) :
    (o.toJsonValue piv).keys = ["totalArea"] ∧
    (o.toJsonValue piv).lookupField "totalArea" =
      some (JsonAtom.num (o.areaCalculator.sum piv)) ∧
    o.toJson numToStr piv = jsonStringify numToStr (o.toJsonValue piv) :=
  ⟨rfl, rfl, rfl⟩

/-- C6: `Outputter.toText` is exactly the fixed template prefix
`"Sum of the areas of provided shapes: "` followed by the runtime's
decimal rendering of the wrapped calculator's `sum()`, with nothing else
before or after. -/
theorem claim_C6_toText_template (numToStr : ℚ → String) (piv : ℚ)
    (o : Outputter) :
    o.toText numToStr piv =
      "Sum of the areas of provided shapes: " ++
        numToStr (o.areaCalculator.sum piv) :=
  rfl

/-- C7: with a non-negative value for the `Math.PI` constant (the real π
is positive), every shape with positive dimensions has a non-negative
area, and the sum over any collection of such shapes is non-negative.
Finiteness is automatic: the model has no non-finite numbers. -/
theorem claim_C7_area_nonneg (piv : ℚ) (hpiv : 0 ≤ piv)
    (c : AreaCalculator) (hdims : ∀ s ∈ c.shapes, s.posDims) :
    (∀ s ∈ c.shapes, 0 ≤ s.area piv) ∧ 0 ≤ c.sum piv := by
  have harea : ∀ s ∈ c.shapes, 0 ≤ s.area piv := by
    intro s hs
    cases s with
    | square w =>
        have hw : 0 < w := hdims _ hs
        exact mul_nonneg hw.le hw.le
    | circle r =>
        have hr : 0 < r := hdims _ hs
        exact mul_nonneg (mul_nonneg hpiv hr.le) hr.le
    | triangle b h =>
        have hbh : 0 < b ∧ 0 < h := hdims _ hs
        exact mul_nonneg (mul_nonneg (by norm_num) hbh.1.le) hbh.2.le
  refine ⟨harea, ?_⟩
  rw [AreaCalculator.sum_eq_map_sum]
  refine List.sum_nonneg ?_
  intro x hx
  obtain ⟨s, hs, rfl⟩ := List.mem_map.mp hx
  exact harea s hs

/-- C7 witness: a concrete positive-π, positive-dimension collection. -/
theorem claim_C7_witness :
    ((0:ℚ) ≤ 3 ∧
      ∀ s ∈ (AreaCalculator.mk
        [Shape.square 2, Shape.circle 1, Shape.triangle 3 4]).shapes,
        s.posDims) ∧
    ((∀ s ∈ (AreaCalculator.mk
        [Shape.square 2, Shape.circle 1, Shape.triangle 3 4]).shapes,
        0 ≤ s.area 3) ∧
      0 ≤ (AreaCalculator.mk
        [Shape.square 2, Shape.circle 1, Shape.triangle 3 4]).sum 3) :=
  ⟨⟨by decide, by decide⟩,
    claim_C7_area_nonneg 3 (by decide) _ (by decide)⟩

/-- C8: on the SRP demo's input `[Circle(2), Square(3), Circle(4)]` the
sum is `4π + 9 + 16π = 20π + 9` (≈ 71.8319 at π's value), and `toJson`
serializes the record with `totalArea` bound to that number. -/
theorem claim_C8_scenario_two (numToStr : ℚ → String) (piv : ℚ) :
    AreaCalculator.sum piv
        ⟨[Shape.circle 2, Shape.square 3, Shape.circle 4]⟩ =
      20 * piv + 9 ∧
    Outputter.toJson numToStr piv
        ⟨⟨[Shape.circle 2, Shape.square 3, Shape.circle 4]⟩⟩ =
      jsonStringify numToStr
        (Json.obj [("totalArea", JsonAtom.num (20 * piv + 9))]) := by
  have hsum : AreaCalculator.sum piv
      ⟨[Shape.circle 2, Shape.square 3, Shape.circle 4]⟩ = 20 * piv + 9 := by
    simp [AreaCalculator.sum, Shape.area]
    ring
  exact ⟨hsum, by simp [Outputter.toJson, Outputter.toJsonValue, hsum]⟩

/-- C9: the SRP-violating calculator and the SRP-compliant refactor agree
observationally: on any list of circles and squares (embedded dimension
for dimension) the `instanceof`-based loop `sum()` equals the
`reduce`-based `sum()`, and the violating `output()` string equals the
compliant `Outputter.toText()` string. -/
theorem claim_C9_srp_variants_equivalent (numToStr : ℚ → String) (piv : ℚ)
    (l : List SrpViolation.CSShape) :
    SrpViolation.AreaCalculator.sum piv ⟨l⟩ =
      AreaCalculator.sum piv ⟨l.map SrpViolation.CSShape.toShape⟩ ∧
    SrpViolation.AreaCalculator.output numToStr piv ⟨l⟩ =
      Outputter.toText numToStr piv
        ⟨⟨l.map SrpViolation.CSShape.toShape⟩⟩ := by
  have hsum : SrpViolation.AreaCalculator.sum piv ⟨l⟩ =
      AreaCalculator.sum piv ⟨l.map SrpViolation.CSShape.toShape⟩ :=
    srp_foldl_eq piv l 0
  exact ⟨hsum,
    by simp [SrpViolation.AreaCalculator.output, Outputter.toText, hsum]⟩

/-- C10: the OCP-violating `reduce` callback has no fallback return: any
list containing an element that is neither a `Square` nor a `Circle`
yields `NaN` or `undefined` instead of a number, and the sum-of-areas
postcondition holds whenever every element is a recognized shape. -/
theorem claim_C10_ocp_no_fallback (piv : ℚ)
    (c : OcpViolation.AreaCalculator) :
    (OcpViolation.AnyVal.other ∈ c.shapes →
      c.sum piv = .nan ∨ c.sum piv = .undefinedVal) ∧
    ((∀ s ∈ c.shapes, s.isRecognized = true) →
      c.sum piv =
        .num ((c.shapes.map (OcpViolation.AnyVal.areaOf piv)).sum)) := by
  constructor
  · intro hmem
    obtain ⟨l₁, l₂, hdecomp⟩ := List.append_of_mem hmem
    unfold OcpViolation.AreaCalculator.sum
    rw [hdecomp, List.foldl_append, List.foldl_cons]
    exact ocp_foldl_stuck piv l₂ _ (Or.inr rfl)
  · intro hrec
    simpa using ocp_foldl_num piv c.shapes 0 hrec

/-- C10 witness: `[Square(10), other]` collapses to `undefined`, while the
all-recognized list `[Square(10), Circle(5)]` sums normally. -/
theorem claim_C10_witness :
    (OcpViolation.AnyVal.other ∈
        [OcpViolation.AnyVal.square 10, OcpViolation.AnyVal.other] ∧
      (OcpViolation.AreaCalculator.sum 3
          ⟨[OcpViolation.AnyVal.square 10, OcpViolation.AnyVal.other]⟩ =
            .nan ∨
        OcpViolation.AreaCalculator.sum 3
          ⟨[OcpViolation.AnyVal.square 10, OcpViolation.AnyVal.other]⟩ =
            .undefinedVal)) ∧
    ((∀ s ∈ [OcpViolation.AnyVal.square 10, OcpViolation.AnyVal.circle 5],
        s.isRecognized = true) ∧
      OcpViolation.AreaCalculator.sum 3
          ⟨[OcpViolation.AnyVal.square 10, OcpViolation.AnyVal.circle 5]⟩ =
        .num (([OcpViolation.AnyVal.square 10,
            OcpViolation.AnyVal.circle 5].map
              (OcpViolation.AnyVal.areaOf 3)).sum)) :=
  ⟨⟨by decide, (claim_C10_ocp_no_fallback 3 ⟨_⟩).1 (by decide)⟩,
    ⟨by decide, (claim_C10_ocp_no_fallback 3 ⟨_⟩).2 (by decide)⟩⟩
